import Mathlib

/-!
Shallow embedding of the item-assembly and temporal-resolution engine of
`parse_datetime` (`src/items/mod.rs`, `src/items/builder.rs`,
`src/items/tz_rule.rs`).

Calendar arithmetic follows the documented semantics of the `chrono` crate
(proleptic Gregorian calendar, Hinnant-style civil-day conversions); the
TZ-rule interpreter follows `jiff`'s fixed-offset semantics.  Floating-point
fields of the source (`time::Time.second : f64`, `Relative::Seconds(f64)`)
are modelled with rationals; the saturating `as` casts of Rust are modelled
explicitly.  Operations where chrono would panic on overflow (the `+=
Duration` operators) are modelled as failure (`none`); all theorems that
quantify over inputs carry success hypotheses that keep them inside the
non-panicking region.
-/

namespace ParseDateTime

/-- Minimum year representable by a chrono `NaiveDate` (`i32::MIN >> 13`). -/
def minYear : Int := -262144

/-- Maximum year representable by a chrono `NaiveDate` (`i32::MAX >> 13`). -/
def maxYear : Int := 262143

/-- Proleptic Gregorian leap-year test. -/
def isLeapYear (y : Int) : Bool := y % 4 == 0 && (y % 100 != 0 || y % 400 == 0)

/-- Number of days in month `m` of year `y` of the proleptic Gregorian calendar. -/
def daysInMonth (y : Int) (m : Nat) : Nat :=
  if m = 2 then (if isLeapYear y then 29 else 28)
  else if m = 4 ∨ m = 6 ∨ m = 9 ∨ m = 11 then 30 else 31

/-- Day offset of the first day of month `m` within the March-based shifted year. -/
def monthOffset (m : Nat) : Nat := (153 * ((m + 9) % 12) + 2) / 5

/-- Number of days from 1970-01-01 to the civil date `y-m-d` (Hinnant's civil
    algorithm, the day-numbering used by chrono's Gregorian arithmetic). -/
def daysFromCivil (y : Int) (m d : Nat) : Int :=
  let ys := if m ≤ 2 then y - 1 else y
  let era := ys / 400
  let yoe := (ys % 400).toNat
  let doe := 365 * yoe + yoe / 4 - yoe / 100 + monthOffset m + (d - 1)
  era * 146097 + (doe : Int) - 719468

/-- Civil date from a count of days since 1970-01-01 (inverse of `daysFromCivil`). -/
def civilFromDays (z : Int) : Int × Nat × Nat :=
  let w := z + 719468
  let era := w / 146097
  let doe := (w % 146097).toNat
  let yoe := (doe - doe / 1460 + doe / 36524 - doe / 146096) / 365
  let doy := doe - (365 * yoe + yoe / 4 - yoe / 100)
  let mp := (5 * doy + 2) / 153
  let d := doy - (153 * mp + 2) / 5 + 1
  let m := if mp < 10 then mp + 3 else mp - 9
  (era * 400 + yoe + (if m ≤ 2 then 1 else 0), m, d)

/-- Validity of a civil date within chrono's `NaiveDate` range. -/
def dateValid (y : Int) (m d : Nat) : Prop :=
  minYear ≤ y ∧ y ≤ maxYear ∧ 1 ≤ m ∧ m ≤ 12 ∧ 1 ≤ d ∧ d ≤ daysInMonth y m

instance (y : Int) (m d : Nat) : Decidable (dateValid y m d) := by
  unfold dateValid; infer_instance

/-- Day index of chrono's `NaiveDate::MIN` (`minYear-01-01`). -/
def minDayIdx : Int := daysFromCivil minYear 1 1

/-- Day index of chrono's `NaiveDate::MAX` (`maxYear-12-31`). -/
def maxDayIdx : Int := daysFromCivil maxYear 12 31

/-- A chrono `NaiveDate`: a civil date. -/
structure NDate where
  y : Int
  m : Nat
  d : Nat
deriving DecidableEq

/-- chrono `NaiveDate::from_ymd_opt`. -/
def fromYmdOpt (y : Int) (m d : Nat) : Option NDate :=
  if dateValid y m d then some ⟨y, m, d⟩ else none

/-- chrono `NaiveDate::pred_opt`: the previous calendar date, `none` at the
    first representable date. -/
def NDate.predOpt (a : NDate) : Option NDate :=
  if a.y = minYear ∧ a.m = 1 ∧ a.d = 1 then none
  else if 1 < a.d then some ⟨a.y, a.m, a.d - 1⟩
  else if 1 < a.m then some ⟨a.y, a.m - 1, daysInMonth a.y (a.m - 1)⟩
  else some ⟨a.y - 1, 12, 31⟩

/-- `last_day_of_month` from `src/items/mod.rs`: the day number of the last day
    of the month, computed as the predecessor of the first day of the next
    month.  Rust evaluates the argument of `unwrap_or` eagerly, so the
    `from_ymd_opt(year + 1, 1, 1).unwrap()` fallback is computed (and its
    `unwrap` panics when `year + 1` is not representable) for every month, not
    only for December; both `unwrap` panics are modelled as `none`. -/
def last_day_of_month (year : Int) (month : Nat) : Option Nat := do
  let fallback ← fromYmdOpt (year + 1) 1 1
  let p ← ((fromYmdOpt year (month + 1) 1).getD fallback).predOpt
  pure p.d

/-- A chrono `DateTime<FixedOffset>`, as the civil (wall-clock) fields together
    with the fixed offset in seconds east of UTC. -/
structure DateTime where
  year : Int
  month : Nat
  day : Nat
  hour : Nat
  minute : Nat
  second : Nat
  nano : Nat
  offset : Int
deriving DecidableEq

/-- Day index of the local calendar date. -/
def DateTime.daysIdx (dt : DateTime) : Int := daysFromCivil dt.year dt.month dt.day

/-- Seconds from the epoch to the local (wall-clock) reading, ignoring the offset. -/
def DateTime.localSec (dt : DateTime) : Int :=
  dt.daysIdx * 86400 + dt.hour * 3600 + dt.minute * 60 + dt.second

/-- The absolute instant: seconds since the UTC epoch. -/
def DateTime.instant (dt : DateTime) : Int := dt.localSec - dt.offset

/-- Rebuild the civil fields from a local second count, attaching `off`. -/
def fromLocalSec (t : Int) (nano : Nat) (off : Int) : DateTime :=
  let days := t / 86400
  let rem := (t % 86400).toNat
  let c := civilFromDays days
  ⟨c.1, c.2.1, c.2.2, rem / 3600, rem % 3600 / 60, rem % 60, nano, off⟩

/-- The `DateTime` denoting instant `t` (seconds since the UTC epoch) displayed
    at offset `off`. -/
def fromInstant (t : Int) (nano : Nat) (off : Int) : DateTime :=
  fromLocalSec (t + off) nano off

/-- chrono `with_timezone`: same instant re-displayed at another offset. -/
def DateTime.withTimezone (dt : DateTime) (off : Int) : DateTime :=
  fromInstant dt.instant dt.nano off

/-- Shift the calendar date by `delta` days (time-of-day and offset unchanged),
    failing outside chrono's `NaiveDate` range. -/
def shiftDays (dt : DateTime) (delta : Int) : Option DateTime :=
  let z := dt.daysIdx + delta
  if minDayIdx ≤ z ∧ z ≤ maxDayIdx then
    let c := civilFromDays z
    some { dt with year := c.1, month := c.2.1, day := c.2.2 }
  else none

/-- chrono `checked_add_days`. -/
def DateTime.checkedAddDays (dt : DateTime) (n : Nat) : Option DateTime :=
  shiftDays dt (n : Int)

/-- chrono `checked_sub_days`. -/
def DateTime.checkedSubDays (dt : DateTime) (n : Nat) : Option DateTime :=
  shiftDays dt (-(n : Int))

/-- Add a whole-second duration to the instant (local fields move with it,
    offset unchanged).  chrono's `+= Duration` panics when the result leaves
    the representable range; the embedding returns `none` there. -/
def DateTime.addDuration (dt : DateTime) (secs : Int) : Option DateTime :=
  let t := dt.localSec + secs
  if minDayIdx ≤ t / 86400 ∧ t / 86400 ≤ maxDayIdx then
    some (fromLocalSec t dt.nano dt.offset)
  else none

/-- chrono `with_hour`. -/
def DateTime.withHour (dt : DateTime) (h : Nat) : Option DateTime :=
  if h ≤ 23 then some { dt with hour := h } else none

/-- chrono `with_minute`. -/
def DateTime.withMinute (dt : DateTime) (v : Nat) : Option DateTime :=
  if v ≤ 59 then some { dt with minute := v } else none

/-- chrono `with_second`. -/
def DateTime.withSecond (dt : DateTime) (v : Nat) : Option DateTime :=
  if v ≤ 59 then some { dt with second := v } else none

/-- chrono `with_nanosecond` (values up to `1_999_999_999` encode leap seconds). -/
def DateTime.withNanosecond (dt : DateTime) (v : Nat) : Option DateTime :=
  if v ≤ 1999999999 then some { dt with nano := v } else none

/-- chrono `with_day`: replace the day of month, failing if invalid. -/
def DateTime.withDay (dt : DateTime) (v : Nat) : Option DateTime :=
  if 1 ≤ v ∧ v ≤ daysInMonth dt.year dt.month then some { dt with day := v } else none

/-- chrono `with_month`: replace the month, failing if the current day does not
    exist in the new month. -/
def DateTime.withMonth (dt : DateTime) (v : Nat) : Option DateTime :=
  if 1 ≤ v ∧ v ≤ 12 ∧ dt.day ≤ daysInMonth dt.year v then
    some { dt with month := v }
  else none

/-- chrono `with_year`: replace the year, failing if the current month/day does
    not exist in the new year (e.g. Feb 29 in a non-leap year) or the year is
    out of range. -/
def DateTime.withYear (dt : DateTime) (v : Int) : Option DateTime :=
  if minYear ≤ v ∧ v ≤ maxYear ∧ dt.day ≤ daysInMonth v dt.month then
    some { dt with year := v }
  else none

/-- The weekday of the local date, numbered Monday = 0 .. Sunday = 6
    (chrono `num_days_from_monday`; 1970-01-01 is a Thursday). -/
def DateTime.weekdayNum (dt : DateTime) : Nat := ((dt.daysIdx + 3) % 7).toNat

/-- `new_date` from `src/items/mod.rs`: `NaiveDate::from_ymd_opt` followed by
    `and_hms_nano_opt`, attached to a fixed offset by `DateTime::from_local`.
    `from_local` subtracts the offset to obtain the internal UTC naive
    datetime and panics when that leaves the `NaiveDateTime` range (its day
    index must stay within `[minDayIdx, maxDayIdx]`); the panic is modelled as
    `none`. -/
def new_date (year : Int) (month day hour minute second nano : Nat) (offset : Int) :
    Option DateTime :=
  if dateValid year month day ∧ hour ≤ 23 ∧ minute ≤ 59 ∧ second ≤ 59 ∧ nano ≤ 1999999999
  then
    if minDayIdx * 86400 ≤ DateTime.instant ⟨year, month, day, hour, minute, second, nano, offset⟩
        ∧ DateTime.instant ⟨year, month, day, hour, minute, second, nano, offset⟩
          ≤ maxDayIdx * 86400 + 86399
    then some ⟨year, month, day, hour, minute, second, nano, offset⟩
    else none
  else none

/-- A weekday name (the `weekday::Day` table; conversion target of chrono's
    `Weekday`). -/
inductive Day
  | mon | tue | wed | thu | fri | sat | sun
deriving DecidableEq

/-- chrono `num_days_from_monday`. -/
def Day.toNat : Day → Nat
  | .mon => 0
  | .tue => 1
  | .wed => 2
  | .thu => 3
  | .fri => 4
  | .sat => 5
  | .sun => 6

/-- `date::Date`: a parsed calendar date; `year` is optional (absence means
    "keep the year already established"). -/
structure Date where
  day : Nat
  month : Nat
  year : Option Nat
deriving DecidableEq

/-- Modelled from the spec: `time::Time` (the file `src/items/time.rs` is not
    part of the provided sources).  Spec §3: hour, minute, second (may carry a
    fractional part, modelled as a rational), and an optional embedded fixed
    offset in seconds east of UTC. -/
structure Time where
  hour : Nat
  minute : Nat
  second : Rat
  offset : Option Int
deriving DecidableEq

/-- `weekday::Weekday`: a signed week count and a target day.  Spec §3:
    offset 0 = "this", -1 = "last", 1 = "next", N = "N-th occurrence". -/
structure Weekday where
  offset : Int
  day : Day
deriving DecidableEq

/-- `relative::Relative`: a signed relative-duration unit.  The integer units
    carry `i32` values, seconds carry an `f64` (modelled as a rational). -/
inductive Relative
  | years (x : Int)
  | months (x : Int)
  | days (x : Int)
  | hours (x : Int)
  | minutes (x : Int)
  | seconds (x : Rat)
deriving DecidableEq

/-- `Item` from `src/items/mod.rs`: one recognized grammatical item.
    A combined date-time carries its date and time parts. -/
inductive Item
  | timestamp (ts : Int)
  | year (y : Nat)
  | dateTime (d : Date) (t : Time)
  | date (d : Date)
  | time (t : Time)
  | weekday (w : Weekday)
  | relative (r : Relative)
  | timeZone (tz : Int)
deriving DecidableEq

/-- Modelled from the spec: conversion of a `time::Offset` value (seconds east
    of UTC) to a chrono `FixedOffset` (`FixedOffset::try_from`); chrono accepts
    strictly less than one day in either direction. -/
def tryFixedOffset (o : Int) : Option Int :=
  if -86400 < o ∧ o < 86400 then some o else none

/-- The Rust `u32 as i32` cast (wrapping). -/
def i32ofU32 (n : Nat) : Int :=
  if n % 4294967296 < 2147483648 then (n % 4294967296 : Int)
  else (n % 4294967296 : Int) - 4294967296

/-- Truncation toward zero of a rational (the rounding mode of Rust's
    float-to-int `as` casts). -/
def ratTrunc (q : Rat) : Int := if q < 0 then -(⌊-q⌋) else ⌊q⌋

/-- The Rust `f64 as u32` cast (saturating, truncating toward zero). -/
def f64ToU32 (q : Rat) : Nat :=
  if q < 0 then 0 else min (⌊q⌋.toNat) 4294967295

/-- The Rust `f64 as i64` cast (saturating, truncating toward zero). -/
def f64ToI64 (q : Rat) : Int :=
  max (-9223372036854775808) (min 9223372036854775807 (ratTrunc q))

/-- Round half away from zero (Rust's `f64::round`). -/
def roundHalfAway (q : Rat) : Int :=
  if q < 0 then -(⌊-q + 1 / 2⌋) else ⌊q + 1 / 2⌋

/-- `(second.fract() * 10f64.powi(9)).round() as u32` from the builder's time
    step: the sub-second part as nanoseconds. -/
def fractNanos (q : Rat) : Nat :=
  let f := q - (ratTrunc q : Rat)
  let r := roundHalfAway (f * 1000000000)
  if r < 0 then 0 else min r.toNat 4294967295

/-- `i32::checked_mul`. -/
def i32CheckedMul (a b : Int) : Option Int :=
  if -2147483648 ≤ a * b ∧ a * b ≤ 2147483647 then some (a * b) else none

/-- Application of one relative unit to the working instant (the match arms of
    the relative loop in `DateTimeBuilder::build`).  The `Months` arm follows
    the source: shift by `last_day_of_month` many days per month, with the
    `u32` wrap of `days * x as u32` modelled by the reduction mod `2^32`;
    `Minutes`/`Seconds` go through chrono's `try_minutes`/`try_seconds`
    millisecond-range checks. -/
def applyRel (dt : DateTime) : Relative → Option DateTime
  | .years x => dt.withYear (dt.year + x)
  | .months x =>
      (last_day_of_month dt.year dt.month).bind fun days =>
      if 0 ≤ x then dt.checkedAddDays (days * x.toNat % 4294967296)
      else dt.checkedSubDays (days * x.natAbs % 4294967296)
  | .days x => dt.addDuration (x * 86400)
  | .hours x => dt.addDuration (x * 3600)
  | .minutes x =>
      if -9223372036854775808 ≤ x * 60000 ∧ x * 60000 ≤ 9223372036854775807 then
        dt.addDuration (x * 60)
      else none
  | .seconds q =>
      let s := f64ToI64 q
      if -9223372036854775808 ≤ s * 1000 ∧ s * 1000 ≤ 9223372036854775807 then
        dt.addDuration s
      else none

/-- The relative loop of `DateTimeBuilder::build`: before each unit, when no
    anchor item (timestamp/date/time/weekday) is present, the working instant
    is reset to the base instant. -/
def applyRelList (reset : Bool) (base : DateTime) : DateTime → List Relative → Option DateTime
  | dt, [] => some dt
  | dt, r :: rs =>
      let cur := if reset then base else dt
      (applyRel cur r).bind fun dt2 => applyRelList reset base dt2 rs

/-- `with_timezone_restore` from `src/items/mod.rs`: convert to the new offset,
    then restore the original wall-clock fields one by one (day first, then
    month, year, hour, minute, second, nanosecond). -/
def with_timezone_restore (offset : Int) (t0 : DateTime) : Option DateTime := do
  let off ← tryFixedOffset offset
  let copy := t0
  let x := t0.withTimezone off
  let x ← x.withDay copy.day
  let x ← x.withMonth copy.month
  let x ← x.withYear copy.year
  let x ← x.withHour copy.hour
  let x ← x.withMinute copy.minute
  let x ← x.withSecond copy.second
  x.withNanosecond copy.nano

/-- The builder state (`DateTimeBuilder` in `src/items/mod.rs`). -/
structure DateTimeBuilder where
  base : Option DateTime := none
  timestamp : Option Int := none
  date : Option Date := none
  time : Option Time := none
  weekday : Option Weekday := none
  timezone : Option Int := none
  relative : List Relative := []
deriving DecidableEq

/-- `DateTimeBuilder::set_base`. -/
def DateTimeBuilder.set_base (b : DateTimeBuilder) (base : DateTime) : DateTimeBuilder :=
  { b with base := some base }

/-- `DateTimeBuilder::set_timestamp`. -/
def DateTimeBuilder.set_timestamp (b : DateTimeBuilder) (ts : Int) : DateTimeBuilder :=
  { b with timestamp := some ts }

/-- `DateTimeBuilder::set_year`: merge into an existing date's year slot, or
    create a default date (day 1, month 1) carrying the year. -/
def DateTimeBuilder.set_year (b : DateTimeBuilder) (y : Nat) : DateTimeBuilder :=
  match b.date with
  | some d => { b with date := some { d with year := some y } }
  | none => { b with date := some ⟨1, 1, some y⟩ }

/-- `DateTimeBuilder::set_date`. -/
def DateTimeBuilder.set_date (b : DateTimeBuilder) (d : Date) : DateTimeBuilder :=
  { b with date := some d }

/-- `DateTimeBuilder::set_time`. -/
def DateTimeBuilder.set_time (b : DateTimeBuilder) (t : Time) : DateTimeBuilder :=
  { b with time := some t }

/-- `DateTimeBuilder::set_weekday`. -/
def DateTimeBuilder.set_weekday (b : DateTimeBuilder) (w : Weekday) : DateTimeBuilder :=
  { b with weekday := some w }

/-- `DateTimeBuilder::set_timezone`. -/
def DateTimeBuilder.set_timezone (b : DateTimeBuilder) (tz : Int) : DateTimeBuilder :=
  { b with timezone := some tz }

/-- `DateTimeBuilder::set_relative`: push onto the ordered relative list. -/
def DateTimeBuilder.set_relative (b : DateTimeBuilder) (r : Relative) : DateTimeBuilder :=
  { b with relative := b.relative ++ [r] }

/-- Steps 1-6 of `DateTimeBuilder::build`: midnight anchor, timestamp override,
    date override, time override, weekday resolution, relative application.
    The source falls back to the current local time when no base is set; the
    embedding covers the explicit-base path used by `at_date`. -/
def buildCore (b : DateTimeBuilder) : Option DateTime := do
  let base ← b.base
  let dt ← new_date base.year base.month base.day 0 0 0 0 base.offset
  let dt := match b.timestamp with
    | some ts => fromInstant ts 0 dt.offset
    | none => dt
  let dt ← match b.date with
    | some d =>
        new_date (match d.year with | some yy => i32ofU32 yy | none => dt.year) d.month d.day
          dt.hour dt.minute dt.second dt.nano dt.offset
    | none => some dt
  let dt ← match b.time with
    | some t =>
        let off := (t.offset.bind tryFixedOffset).getD dt.offset
        new_date dt.year dt.month dt.day t.hour t.minute (f64ToU32 t.second)
          (fractNanos t.second) off
    | none => some dt
  let dt ← match b.weekday with
    | some w => do
        let dt ← if b.time.isNone then do
            let d1 ← dt.withHour 0
            let d2 ← d1.withMinute 0
            let d3 ← d2.withSecond 0
            d3.withNanosecond 0
          else some dt
        let off := if dt.weekdayNum ≠ w.day.toNat ∧ 0 < w.offset then w.offset - 1 else w.offset
        let wk ← i32CheckedMul off 7
        let delta := ((w.day.toNat : Int) - (dt.weekdayNum : Int)) % 7 + wk
        if delta < 0 then dt.checkedSubDays (-delta).toNat else dt.checkedAddDays delta.toNat
    | none => some dt
  applyRelList (b.timestamp.isNone && b.date.isNone && b.time.isNone && b.weekday.isNone)
    base dt b.relative

/-- `DateTimeBuilder::build`: steps 1-6 followed by the timezone relabeling. -/
def DateTimeBuilder.build (b : DateTimeBuilder) : Option DateTime := do
  let dt ← buildCore b
  match b.timezone with
  | some off => with_timezone_restore off dt
  | none => some dt

/-- The library's failure value. -/
inductive ParseDateTimeError
  | invalidInput
deriving DecidableEq

/-- `at_date` from `src/items/mod.rs`: resolve a builder against a base
    instant; a `None` from `build` becomes `InvalidInput`. -/
def at_date (b : DateTimeBuilder) (base : DateTime) : Except ParseDateTimeError DateTime :=
  match (b.set_base base).build with
  | some dt => .ok dt
  | none => .error .invalidInput

/-- The accumulation step of `parse` in `src/items/mod.rs`: the match on one
    recognized `Item`, enforcing the conflict rules with their exact reason
    strings before storing the item into the builder. -/
def accumulate (b : DateTimeBuilder) : Item → Except String DateTimeBuilder
  | .timestamp ts =>
      if b.timestamp.isSome then .error "timestamp cannot appear more than once"
      else .ok (b.set_timestamp ts)
  | .year y =>
      if (b.date.bind Date.year).isSome then .error "year cannot appear more than once"
      else .ok (b.set_year y)
  | .dateTime d t =>
      if b.date.isSome || b.time.isSome then .error "date or time cannot appear more than once"
      else .ok ((b.set_date d).set_time t)
  | .date d =>
      if b.date.isSome then .error "date cannot appear more than once"
      else .ok (b.set_date d)
  | .time t =>
      if b.time.isSome then .error "time cannot appear more than once"
      else if b.timezone.isSome && t.offset.isSome then
        .error "timezone cannot appear more than once"
      else .ok (b.set_time t)
  | .weekday w =>
      if b.weekday.isSome then .error "weekday cannot appear more than once"
      else .ok (b.set_weekday w)
  | .timeZone tz =>
      if b.timezone.isSome || (b.time.bind Time.offset).isSome then
        .error "timezone cannot appear more than once"
      else .ok (b.set_timezone tz)
  | .relative r => .ok (b.set_relative r)

/-- Sign factor of an optional `+`/`-` sign character (`plus_or_minus`):
    `-1` for `-`, `1` otherwise. -/
def signFactor (sign : Option Char) : Int := if sign = some '-' then -1 else 1

/-- `proleptic_offset` from `src/items/tz_rule.rs`: the semantic action mapping
    an optional sign and the parsed `HH[:MM[:SS]]` components (absent parts
    are zero) to signed seconds, clamping hour to 24 and minute/second to 59. -/
def proleptic_offset (sign : Option Char) (h m s : Nat) : Int :=
  signFactor sign * ((min h 24 : Int) * 3600 + (min m 59 : Int) * 60 + (min s 59 : Int))

/-- jiff `Offset::from_seconds`: fixed offsets are bounded by 25:59:59. -/
def offsetFromSeconds (s : Int) : Option Int :=
  if -93599 ≤ s ∧ s ≤ 93599 then some s else none

/-- `proleptic` from `src/items/tz_rule.rs`: the STD name always resolves to
    UTC (base offset 0); the optional offset components are interpreted by
    `proleptic_offset` and the sum is turned into a fixed offset. -/
def proleptic (off : Option (Option Char × Nat × Nat × Nat)) : Option Int :=
  let base : Int := 0
  let o := match off with
    | some (sg, h, m, s) => proleptic_offset sg h m s
    | none => 0
  offsetFromSeconds (base + o)

/-- Midnight of a datetime's calendar date (fields as produced by the anchor
    step of `DateTimeBuilder::build`). -/
def DateTime.midnight (dt : DateTime) : DateTime :=
  { dt with hour := 0, minute := 0, second := 0, nano := 0 }

/-- The Wednesday base `2025-01-01T00:00:00Z` used by the specification's
    weekday examples. -/
def wedBase : DateTime := ⟨2025, 1, 1, 0, 0, 0, 0, 0⟩

end ParseDateTime

namespace ParseDateTime

/-- On success, `with_timezone_restore` returns the input's wall-clock fields
    verbatim under the requested offset. -/
theorem with_timezone_restore_fields (offset : Int) (t0 x : DateTime)
    (h : with_timezone_restore offset t0 = some x) :
    x.year = t0.year ∧ x.month = t0.month ∧ x.day = t0.day ∧ x.hour = t0.hour ∧
      x.minute = t0.minute ∧ x.second = t0.second ∧ x.nano = t0.nano ∧ x.offset = offset := by
  rw [with_timezone_restore] at h
  rcases hoff : tryFixedOffset offset with _ | o
  · rw [hoff] at h; exact absurd h (by simp)
  · have ho : o = offset := by
      rw [tryFixedOffset] at hoff
      split_ifs at hoff
      exact (Option.some_inj.mp hoff).symm
    subst ho
    rw [hoff] at h
    simp only [Option.bind_eq_bind, Option.some_bind, DateTime.withDay, DateTime.withMonth,
      DateTime.withYear, DateTime.withHour, DateTime.withMinute, DateTime.withSecond,
      DateTime.withNanosecond, Option.bind_eq_some, Option.ite_none_right_eq_some,
      Option.some.injEq] at h
    obtain ⟨a1, ⟨-, ha1⟩, a2, ⟨-, ha2⟩, a3, ⟨-, ha3⟩, a4, ⟨-, ha4⟩, a5, ⟨-, ha5⟩,
      a6, ⟨-, ha6⟩, -, hx⟩ := h
    subst ha1
    subst ha2
    subst ha3
    subst ha4
    subst ha5
    subst ha6
    subst hx
    exact ⟨rfl, rfl, rfl, rfl, rfl, rfl, rfl, rfl⟩

/-- The anchor call of `DateTimeBuilder::build`: on a valid base date whose
    midnight keeps the offset-adjusted instant inside the `NaiveDateTime`
    range (so `from_local` does not panic), `new_date` returns the base's
    midnight. -/
theorem new_date_midnight (base : DateTime)
    (hv : dateValid base.year base.month base.day)
    (hr : minDayIdx * 86400 ≤ base.midnight.instant ∧
      base.midnight.instant ≤ maxDayIdx * 86400 + 86399) :
    new_date base.year base.month base.day 0 0 0 0 base.offset = some base.midnight := by
  have hr2 : minDayIdx * 86400 ≤
      DateTime.instant ⟨base.year, base.month, base.day, 0, 0, 0, 0, base.offset⟩ ∧
      DateTime.instant ⟨base.year, base.month, base.day, 0, 0, 0, 0, base.offset⟩ ≤
        maxDayIdx * 86400 + 86399 := hr
  rw [new_date, if_pos ⟨hv, by omega, by omega, by omega, by omega⟩, if_pos hr2]
  rfl

/-- C3: accumulation fails with exactly the reason string from the §4.2 table
    when a conflicting item is recognized: a second timestamp, a second
    explicit year, a combined date-time after a date or a time, a second date,
    a second time, a second timezone (or a timezone together with a time that
    embeds an offset, in either order) each yield their fixed reason string,
    while relative items never conflict and are appended in order. -/
theorem c3_conflicts :
    (∀ (b : DateTimeBuilder) (ts : Int), b.timestamp.isSome →
      accumulate b (.timestamp ts) = .error "timestamp cannot appear more than once")
    ∧ (∀ (b : DateTimeBuilder) (d : Date) (y0 y : Nat), b.date = some d → d.year = some y0 →
      accumulate b (.year y) = .error "year cannot appear more than once")
    ∧ (∀ (b : DateTimeBuilder) (d : Date) (t : Time), b.date.isSome ∨ b.time.isSome →
      accumulate b (.dateTime d t) = .error "date or time cannot appear more than once")
    ∧ (∀ (b : DateTimeBuilder) (d : Date), b.date.isSome →
      accumulate b (.date d) = .error "date cannot appear more than once")
    ∧ (∀ (b : DateTimeBuilder) (t : Time), b.time.isSome →
      accumulate b (.time t) = .error "time cannot appear more than once")
    ∧ (∀ (b : DateTimeBuilder) (t : Time), b.time = none → b.timezone.isSome →
      t.offset.isSome →
      accumulate b (.time t) = .error "timezone cannot appear more than once")
    ∧ (∀ (b : DateTimeBuilder) (tz : Int), b.timezone.isSome →
      accumulate b (.timeZone tz) = .error "timezone cannot appear more than once")
    ∧ (∀ (b : DateTimeBuilder) (t : Time) (o tz : Int), b.time = some t → t.offset = some o →
      accumulate b (.timeZone tz) = .error "timezone cannot appear more than once")
    ∧ (∀ (b : DateTimeBuilder) (r : Relative),
      accumulate b (.relative r) = .ok { b with relative := b.relative ++ [r] }) := by
  refine ⟨?_, ?_, ?_, ?_, ?_, ?_, ?_, ?_, ?_⟩
  · intro b ts h
    simp [accumulate, h]
  · intro b d y0 y hd hy
    simp [accumulate, hd, hy]
  · intro b d t h
    rcases h with h | h <;> simp [accumulate, h]
  · intro b d h
    simp [accumulate, h]
  · intro b t h
    simp [accumulate, h]
  · intro b t ht htz hto
    simp [accumulate, ht, htz, hto]
  · intro b tz h
    simp [accumulate, h]
  · intro b t o tz ht hto
    simp [accumulate, ht, hto]
  · intro b r
    simp [accumulate, DateTimeBuilder.set_relative]

/-- Witness for C3: each conflict rule fires on a concrete builder. -/
theorem c3_witness :
    accumulate { timestamp := some 1 } (.timestamp 2) =
      .error "timestamp cannot appear more than once"
    ∧ accumulate { date := some ⟨5, 6, some 2024⟩ } (.year 2025) =
      .error "year cannot appear more than once"
    ∧ accumulate { date := some ⟨5, 6, none⟩ } (.dateTime ⟨1, 1, none⟩ ⟨0, 0, 0, none⟩) =
      .error "date or time cannot appear more than once"
    ∧ accumulate { date := some ⟨5, 6, none⟩ } (.date ⟨1, 1, none⟩) =
      .error "date cannot appear more than once"
    ∧ accumulate { time := some ⟨0, 0, 0, none⟩ } (.time ⟨1, 0, 0, none⟩) =
      .error "time cannot appear more than once"
    ∧ accumulate { timezone := some 0 } (.time ⟨1, 0, 0, some 3600⟩) =
      .error "timezone cannot appear more than once"
    ∧ accumulate { timezone := some 0 } (.timeZone 3600) =
      .error "timezone cannot appear more than once"
    ∧ accumulate { time := some ⟨1, 0, 0, some 3600⟩ } (.timeZone 0) =
      .error "timezone cannot appear more than once"
    ∧ accumulate { timestamp := some 1 } (.relative (.days 2)) =
      .ok { timestamp := some 1, relative := [.days 2] } := by
  obtain ⟨h1, h2, h3, h4, h5, h6, h7, h8, h9⟩ := c3_conflicts
  exact ⟨h1 _ 2 (by decide), h2 _ _ 2024 2025 rfl rfl, h3 _ _ _ (Or.inl (by decide)),
    h4 _ _ (by decide), h5 _ _ (by decide), h6 _ _ rfl (by decide) (by decide),
    h7 _ 3600 (by decide), h8 _ _ 3600 0 rfl rfl, h9 _ _⟩

/-- C7: a bare `Year` item merges into an existing date that lacks an explicit
    year, creates a default date (day 1, month 1) when no date is set, and
    conflicts (with the fixed reason string) when the existing date already
    carries an explicit year. -/
theorem c7_set_year :
    (∀ (b : DateTimeBuilder) (d : Date) (y : Nat), b.date = some d → d.year = none →
      accumulate b (.year y) = .ok { b with date := some { d with year := some y } })
    ∧ (∀ (b : DateTimeBuilder) (y : Nat), b.date = none →
      accumulate b (.year y) = .ok { b with date := some ⟨1, 1, some y⟩ })
    ∧ (∀ (b : DateTimeBuilder) (d : Date) (y0 y : Nat), b.date = some d → d.year = some y0 →
      accumulate b (.year y) = .error "year cannot appear more than once") := by
  refine ⟨?_, ?_, ?_⟩
  · intro b d y hd hy
    simp [accumulate, DateTimeBuilder.set_year, hd, hy]
  · intro b y hd
    simp [accumulate, DateTimeBuilder.set_year, hd]
  · intro b d y0 y hd hy
    simp [accumulate, hd, hy]

/-- Witness for C7: the three behaviours on concrete builders. -/
theorem c7_witness :
    accumulate { date := some ⟨5, 6, none⟩ } (.year 2024) =
      .ok { date := some ⟨5, 6, some 2024⟩ }
    ∧ accumulate {} (.year 2024) = .ok { date := some ⟨1, 1, some 2024⟩ }
    ∧ accumulate { date := some ⟨5, 6, some 2023⟩ } (.year 2024) =
      .error "year cannot appear more than once" := by
  obtain ⟨h1, h2, h3⟩ := c7_set_year
  exact ⟨h1 _ _ 2024 rfl rfl, h2 _ 2024 rfl, h3 _ _ 2023 2024 rfl rfl⟩

/-- C9: accumulation is order-sensitive across `Year` and `Date`: a bare year
    accumulated first occupies the date slot, so a following date item fails
    with "date cannot appear more than once", while date-then-year succeeds by
    merging the year into the date (when the date item itself has no explicit
    year). -/
theorem c9_year_date_order :
    (∀ (b : DateTimeBuilder) (y : Nat) (d : Date), b.date = none →
      Except.bind (accumulate b (.year y)) (fun b1 => accumulate b1 (.date d)) =
        .error "date cannot appear more than once")
    ∧ (∀ (b : DateTimeBuilder) (y : Nat) (d : Date), b.date = none → d.year = none →
      Except.bind (accumulate b (.date d)) (fun b1 => accumulate b1 (.year y)) =
        .ok { b with date := some { d with year := some y } }) := by
  constructor
  · intro b y d hd
    simp [accumulate, DateTimeBuilder.set_year, hd, Except.bind]
  · intro b y d hd hy
    simp [accumulate, DateTimeBuilder.set_date, DateTimeBuilder.set_year, hd, hy, Except.bind]

/-- C9 as universally stated fails when the Date item itself carries an
    explicit year: accumulating the date first and the bare year second then
    errors on the year rule instead of succeeding by merging. -/
theorem c9_counterexample :
    Except.bind (accumulate {} (.date ⟨5, 6, some 2024⟩)) (fun b1 => accumulate b1 (.year 2025)) =
      .error "year cannot appear more than once" := by
  rfl

/-- Witness for C9: the two orders on a fresh builder. -/
theorem c9_witness :
    Except.bind (accumulate {} (.year 2024)) (fun b1 => accumulate b1 (.date ⟨5, 6, none⟩)) =
      .error "date cannot appear more than once"
    ∧ Except.bind (accumulate {} (.date ⟨5, 6, none⟩)) (fun b1 => accumulate b1 (.year 2024)) =
      .ok { date := some ⟨5, 6, some 2024⟩ } := by
  obtain ⟨h1, h2⟩ := c9_year_date_order
  exact ⟨h1 _ 2024 _ rfl, h2 _ 2024 _ rfl rfl⟩

/-- C8: the proleptic TZ-rule offset interpreter clamps out-of-range components
    (hour to 24, minute and second to 59) rather than rejecting them, and
    produces the signed total `sign * (HH*3600 + MM*60 + SS)` seconds added to
    the UTC zero base (the clamped total always fits jiff's offset range, so
    interpretation never fails); in particular `"UTC+5:60"` yields the offset
    `+5:59`, i.e. `5*3600 + 59*60 = 21540` seconds. -/
theorem c8_proleptic_clamp :
    (∀ (sg : Option Char) (h m s : Nat),
      proleptic (some (sg, h, m, s)) = some (proleptic_offset sg h m s))
    ∧ (∀ (sg : Option Char) (h m s : Nat),
      proleptic_offset sg h m s =
        signFactor sg *
          ((min h 24 : Nat) * 3600 + (min m 59 : Nat) * 60 + (min s 59 : Nat) : Int))
    ∧ proleptic (some (some '+', 5, 60, 0)) = some 21540
    ∧ proleptic_offset (some '+') 5 60 0 = 5 * 3600 + 59 * 60 := by
  refine ⟨?_, ?_, by decide, by decide⟩
  · intro sg h m s
    show offsetFromSeconds (0 + proleptic_offset sg h m s) = some (proleptic_offset sg h m s)
    rw [zero_add, offsetFromSeconds, if_pos]
    have hh : min h 24 ≤ 24 := min_le_right h 24
    have hm : min m 59 ≤ 59 := min_le_right m 59
    have hs : min s 59 ≤ 59 := min_le_right s 59
    rw [proleptic_offset, signFactor]
    split_ifs <;> constructor <;> omega
  · intro sg h m s
    rw [proleptic_offset]
    push_cast
    ring

/-- C10: timezone relabeling is partial: there is a Specification for which
    steps 1-6 succeed but the timezone step fails the whole resolution with
    `InvalidInput`, because the converted instant lands on a calendar date
    whose month cannot hold the original day-of-month (the restoration sets the
    day field first): the epoch timestamp `1738366200` denotes the instant
    `2025-01-31T23:30:00Z`; relabeled to `+01:00` it converts to February 1st,
    where `with_day(31)` fails. -/
theorem c10_timezone_failure :
    at_date { timestamp := some 1738366200, timezone := some 3600 } wedBase =
      .error .invalidInput
    ∧ at_date { timestamp := some 1738366200 } wedBase =
      .ok ⟨2025, 1, 31, 23, 30, 0, 0, 0⟩ := by
  constructor
  · rfl
  · rfl

/-- C5: when a distinct timezone item is present and resolution succeeds, the
    result carries exactly the wall-clock fields (year, month, day, hour,
    minute, second, sub-second) computed by steps 1-6 (the resolution of the
    same Specification without the timezone item), and only the offset label is
    changed to the requested timezone. -/
theorem c5_timezone_relabel (b : DateTimeBuilder) (tz : Int) (r : DateTime)
    (htz : b.timezone = some tz) (hb : b.build = some r) :
    ∃ s, DateTimeBuilder.build { b with timezone := none } = some s ∧
      r.year = s.year ∧ r.month = s.month ∧ r.day = s.day ∧ r.hour = s.hour ∧
      r.minute = s.minute ∧ r.second = s.second ∧ r.nano = s.nano ∧ r.offset = tz := by
  rw [DateTimeBuilder.build] at hb
  simp only [htz, Option.bind_eq_bind] at hb
  obtain ⟨s, hs, hr⟩ := Option.bind_eq_some.mp hb
  have hcore : buildCore { b with timezone := none } = buildCore b := rfl
  refine ⟨s, ?_, ?_⟩
  · rw [DateTimeBuilder.build]
    simp only [hcore, hs, Option.bind_eq_bind, Option.some_bind]
  · exact with_timezone_restore_fields tz s r hr

/-- Witness for C5: relabeling `2025-06-15` to `-01:00` keeps all wall-clock
    fields of the timezone-free resolution and changes only the offset. -/
theorem c5_witness :
    ∃ s, DateTimeBuilder.build { base := some wedBase, date := some ⟨15, 6, some 2025⟩ } =
        some s ∧
      (2025 : Int) = s.year ∧ 6 = s.month ∧ 15 = s.day ∧ 0 = s.hour ∧ 0 = s.minute ∧
      0 = s.second ∧ 0 = s.nano ∧ (-3600 : Int) = -3600 := by
  have h := c5_timezone_relabel
    { base := some wedBase, date := some ⟨15, 6, some 2025⟩, timezone := some (-3600) }
    (-3600) ⟨2025, 6, 15, 0, 0, 0, 0, -3600⟩ rfl (by rfl)
  exact h

/-- C6: an epoch timestamp item replaces the instant with the absolute moment
    `ts` seconds after the UTC epoch, displayed at the base's offset (with zero
    sub-seconds), for every base whose midnight keeps the offset-adjusted
    instant inside the `NaiveDateTime` range (outside it the source panics in
    the anchor's `from_local` before the timestamp override); in particular
    `@1690466034` resolves to `2023-07-27T13:53:54+00:00` against a UTC
    base. -/
theorem c6_timestamp :
    (∀ (base : DateTime) (ts : Int), dateValid base.year base.month base.day →
      minDayIdx * 86400 ≤ base.midnight.instant ∧
        base.midnight.instant ≤ maxDayIdx * 86400 + 86399 →
      DateTimeBuilder.build { base := some base, timestamp := some ts } =
        some (fromInstant ts 0 base.offset))
    ∧ DateTimeBuilder.build { base := some wedBase, timestamp := some 1690466034 } =
      some ⟨2023, 7, 27, 13, 53, 54, 0, 0⟩ := by
  refine ⟨?_, rfl⟩
  intro base ts hv hr
  have hnd := new_date_midnight base hv hr
  simp only [DateTimeBuilder.build, buildCore, Option.bind_eq_bind, Option.some_bind, hnd,
    applyRelList]
  rfl

/-- Witness for C6: the general timestamp statement at the UTC base and the
    epoch second `1690466034`. -/
theorem c6_witness :
    DateTimeBuilder.build { base := some wedBase, timestamp := some 1690466034 } =
      some (fromInstant 1690466034 0 wedBase.offset) :=
  c6_timestamp.1 wedBase 1690466034 (by decide) (by decide)

/- Validation of the calendar embedding: the Hinnant civil-date conversion pair
   `daysFromCivil` / `civilFromDays`, translated from chrono's Gregorian day
   arithmetic, is a genuine round trip on every valid calendar date. -/

/-- Recovering the year-of-era from a day-of-era in Hinnant's algorithm. -/
theorem yoe_recover (yoe doy : Nat) (h1 : yoe ≤ 399)
    (h2 : doy ≤ 364 ∨ (doy = 365 ∧ (yoe + 1) % 4 = 0 ∧ ((yoe + 1) % 100 ≠ 0 ∨ yoe + 1 = 400))) :
    ((365 * yoe + yoe / 4 - yoe / 100 + doy) - (365 * yoe + yoe / 4 - yoe / 100 + doy) / 1460
      + (365 * yoe + yoe / 4 - yoe / 100 + doy) / 36524
      - (365 * yoe + yoe / 4 - yoe / 100 + doy) / 146096) / 365 = yoe := by
  have hq4 : yoe / 4 = 25 * (yoe / 100) + (yoe % 100) / 4 := by omega
  have hl : doy ≤ 364 ∨ (doy = 365 ∧ yoe % 4 = 3 ∧ (yoe % 100 ≠ 99 ∨ yoe = 399)) := by omega
  obtain ⟨e1, he1⟩ : ∃ e1, (yoe / 4 - yoe / 100 + 365 * (yoe % 4) + doy) / 1460 = e1 := ⟨_, rfl⟩
  obtain ⟨e2, he2⟩ : ∃ e2, (365 * (yoe % 100) + (yoe % 100) / 4 + doy) / 36524 = e2 := ⟨_, rfl⟩
  obtain ⟨e3, he3⟩ : ∃ e3, (365 * yoe + yoe / 4 - yoe / 100 + doy) / 146096 = e3 := ⟨_, rfl⟩
  have h1460 : (365 * yoe + yoe / 4 - yoe / 100 + doy) / 1460 = yoe / 4 + e1 := by omega
  have h36524 : (365 * yoe + yoe / 4 - yoe / 100 + doy) / 36524 = yoe / 100 + e2 := by omega
  have f1 : e1 ≤ 1 := by omega
  have f2 : e2 ≤ 1 := by omega
  have f3 : e3 ≤ 1 := by omega
  have g1 : e1 = 1 → 1 ≤ doy := by omega
  have g2 : doy = 365 → yoe % 4 = 3 → e1 = 1 := by omega
  have g3 : e2 = 1 → doy = 365 ∧ yoe % 100 = 99 := by omega
  have g4 : doy = 365 → yoe = 399 → e2 = 1 ∧ e3 = 1 := by omega
  have g5 : e3 = 1 → yoe = 399 ∧ doy = 365 := by omega
  have hcomb : e1 + e3 ≤ doy + e2 ∧ doy + e2 ≤ 364 + e1 + e3 := by
    clear he1 he2 he3 h1460 h36524 hq4 h2
    omega
  rw [h1460, h36524, he3]
  clear he1 he2 he3 h1460 h36524
  omega

/-- `civilFromDays` inverts the era/year-of-era/day-of-year composition used by
    `daysFromCivil`. -/
theorem civilFromDays_decomp (era : Int) (yoe doy : Nat) (h1 : yoe ≤ 399)
    (h2 : doy ≤ 364 ∨ (doy = 365 ∧ (yoe + 1) % 4 = 0 ∧ ((yoe + 1) % 100 ≠ 0 ∨ yoe + 1 = 400))) :
    civilFromDays (era * 146097 + ((365 * yoe + yoe / 4 - yoe / 100 + doy : Nat) : Int) - 719468) =
      (era * 400 + yoe +
        (if (if (5 * doy + 2) / 153 < 10 then (5 * doy + 2) / 153 + 3
            else (5 * doy + 2) / 153 - 9) ≤ 2 then 1 else 0),
       (if (5 * doy + 2) / 153 < 10 then (5 * doy + 2) / 153 + 3 else (5 * doy + 2) / 153 - 9),
       doy - (153 * ((5 * doy + 2) / 153) + 2) / 5 + 1) := by
  simp only [civilFromDays]
  have hEra : (era * 146097 + ((365 * yoe + yoe / 4 - yoe / 100 + doy : Nat) : Int) - 719468
      + 719468) / 146097 = era := by omega
  have hDoe : ((era * 146097 + ((365 * yoe + yoe / 4 - yoe / 100 + doy : Nat) : Int) - 719468
      + 719468) % 146097).toNat = 365 * yoe + yoe / 4 - yoe / 100 + doy := by omega
  rw [hEra, hDoe, yoe_recover yoe doy h1 h2]
  have hdoy : 365 * yoe + yoe / 4 - yoe / 100 + doy - (365 * yoe + yoe / 4 - yoe / 100) =
      doy := by omega
  rw [hdoy]

/-- Round trip: converting a valid civil date to a day count and back returns
    the same date, for every year and every day valid per `daysInMonth`. -/
theorem civilFromDays_daysFromCivil (y : Int) (m d : Nat) (hm1 : 1 ≤ m) (hm2 : m ≤ 12)
    (hd1 : 1 ≤ d) (hd2 : d ≤ daysInMonth y m) :
    civilFromDays (daysFromCivil y m d) = (y, m, d) := by
  have hO : d ≤ 31 ∧ (m = 2 → d ≤ 29) ∧ ((m = 4 ∨ m = 6 ∨ m = 9 ∨ m = 11) → d ≤ 30) ∧
      (m = 2 ∧ ¬(y % 4 = 0 ∧ (y % 100 ≠ 0 ∨ y % 400 = 0)) → d ≤ 28) := by
    unfold daysInMonth isLeapYear at hd2
    split_ifs at hd2 <;> simp_all <;> omega
  clear hd2
  simp only [daysFromCivil]
  by_cases hmle : m ≤ 2
  · rw [if_pos hmle]
    have hre : 365 * ((y - 1) % 400).toNat + ((y - 1) % 400).toNat / 4
          - ((y - 1) % 400).toNat / 100 + monthOffset m + (d - 1)
        = 365 * ((y - 1) % 400).toNat + ((y - 1) % 400).toNat / 4
          - ((y - 1) % 400).toNat / 100 + (monthOffset m + (d - 1)) := by omega
    rw [hre, civilFromDays_decomp ((y - 1) / 400) (((y - 1) % 400).toNat)
      (monthOffset m + (d - 1)) (by omega)
      (by simp only [monthOffset]; omega)]
    simp only [monthOffset, Prod.mk.injEq]
    interval_cases m <;>
      exact ⟨by split_ifs <;> omega, by split_ifs <;> omega,
        by have h31 : d ≤ 31 := hO.1; clear hre; omega⟩
  · rw [if_neg hmle]
    have hre : 365 * (y % 400).toNat + (y % 400).toNat / 4 - (y % 400).toNat / 100
          + monthOffset m + (d - 1)
        = 365 * (y % 400).toNat + (y % 400).toNat / 4 - (y % 400).toNat / 100
          + (monthOffset m + (d - 1)) := by omega
    rw [hre, civilFromDays_decomp (y / 400) ((y % 400).toNat)
      (monthOffset m + (d - 1)) (by omega)
      (by simp only [monthOffset]; omega)]
    simp only [monthOffset, Prod.mk.injEq]
    have h3m : 3 ≤ m := by omega
    interval_cases m <;>
      exact ⟨by split_ifs <;> omega, by split_ifs <;> omega,
        by have h31 : d ≤ 31 := hO.1; clear hre; omega⟩


end ParseDateTime
